import Mathlib

/-!
Verification of the raffle ticket-allocation core (rifa-marlize).

Shallow embedding of the server routes of the repository.  The repository
contains three schema variants of the same raffle service:

* Variant A (`src/backend/src/database.ts`, `src/backend/src/server.ts`,
  `src/unnamed/part_000`): tickets are `{id, buyer, selected}`; a ticket
  counts as sold when `buyer` is a non-empty string; the purchase route
  pre-checks conflicts with a `find` on `buyer != empty` and commits with a
  single `updateMany`; the admin route reports `{total, sold, available,
  revenue}` statistics.

* Variant B (`src/api/index.ts` route `POST /numbers/purchase`,
  `src/api/numbers.ts`, `src/unnamed/part_001`): tickets are
  `{number, isAvailable, purchasedBy, purchaseDate}`.  The `src/api/index.ts`
  route commits with one `updateMany`; the `src/api/numbers.ts` and
  `src/unnamed/part_001` routes commit with one `findOneAndUpdate` per
  requested number.

* Variant C (`src/api/server.ts`): tickets are `{number, isSelected,
  selectedAt}`; `POST /api/reset` bulk-clears the selected tickets.

Timestamps are modelled as natural numbers, the request timestamp being
passed as an explicit `now` argument.
-/

/-- The JavaScript `String.prototype.trim()`: strip leading and trailing
whitespace.  (Defined structurally so that it evaluates inside the kernel;
the core-library `String.trim` is definitionally opaque to `decide`.) -/
def jsTrim (s : String) : String :=
  ⟨((s.toList.dropWhile Char.isWhitespace).reverse.dropWhile Char.isWhitespace).reverse⟩

/-! ## Variant A: tickets `{id, buyer, selected}` -/

/-- A ticket record of the `{id, buyer, selected}` schema
(`src/backend/src/models/Number.ts`, `src/unnamed/part_000`). -/
structure TicketA where
  id : Nat
  buyer : String
  selected : Bool
deriving Repr, DecidableEq

/-- The pool created at first startup by `connectDB`
(`src/backend/src/database.ts` lines 12-23): 400 tickets with ids `1..400`,
empty `buyer`, `selected = false`. -/
def initTicketsA : List TicketA :=
  (List.range 400).map fun i => { id := i + 1, buyer := "", selected := false }

/-- The store operations the purchase route issues, in order
(`src/unnamed/part_000` lines 116-137): one `find` over the requested ids
with `buyer != empty`, then - only on the no-conflict path - one
`updateMany` over the requested ids. -/
inductive StoreOpA where
  | findSold (ids : List Nat)
  | updateMany (ids : List Nat) (buyer : String)
deriving Repr, DecidableEq

/-- The responses of `POST /api/purchase` (`src/unnamed/part_000` lines
95-144): three 400-level validation errors, a 401 on a wrong password, a 400
`AlreadySold` response carrying `soldNumbers`, and the success response. -/
inductive RespA where
  | invalidNumbers
  | buyerRequired
  | passwordRequired
  | wrongPassword
  | alreadySold (soldNumbers : List Nat)
  | success
deriving Repr, DecidableEq

/-- The conflict query `Number.find (id in numbers, buyer ne empty)`
(`src/backend/src/database.ts` lines 50-53, `src/unnamed/part_000` lines
116-119). -/
def conflictsA (numbers : List Nat) (s : List TicketA) : List TicketA :=
  s.filter fun t => decide (t.id ∈ numbers ∧ t.buyer ≠ "")

/-- The per-document effect of the commit
`updateMany (id in numbers) (set buyer := jsTrim buyer, selected := true)`
(`src/unnamed/part_000` lines 128-137). -/
def purchaseUpdA (buyer : String) (numbers : List Nat) (t : TicketA) : TicketA :=
  if t.id ∈ numbers then { t with buyer := jsTrim buyer, selected := true } else t

/-- The route `POST /api/purchase` of `src/unnamed/part_000` (lines 95-144; the same
logic as `src/backend/src/server.ts` lines 44-71 composed with
`purchaseNumbers` of `src/backend/src/database.ts`).  Returns the HTTP
response, the state of the store after the request, and the trace of store
operations the request performed. -/
def purchaseA (env : String) (numbers : List Nat) (buyer password : String)
    (s : List TicketA) : RespA × List TicketA × List StoreOpA :=
  if numbers = [] then (RespA.invalidNumbers, s, [])
  else if jsTrim buyer = "" then (RespA.buyerRequired, s, [])
  else if password = "" then (RespA.passwordRequired, s, [])
  else if password ≠ env then (RespA.wrongPassword, s, [])
  else if conflictsA numbers s = [] then
    (RespA.success, s.map (purchaseUpdA buyer numbers),
      [StoreOpA.findSold numbers, StoreOpA.updateMany numbers (jsTrim buyer)])
  else
    (RespA.alreadySold ((conflictsA numbers s).map fun t => t.id), s,
      [StoreOpA.findSold numbers])

/-- The statistics block of `GET /api/admin/numbers` (`src/unnamed/part_000`
lines 161-174): `total` counts all documents, `sold` counts
`buyer ne empty`, `available` counts `buyer = empty`, and
`revenue = sold * 20`. -/
structure StatsA where
  total : Nat
  sold : Nat
  available : Nat
  revenue : Nat
deriving Repr, DecidableEq

/-- The statistics computed by `GET /api/admin/numbers`
(`src/unnamed/part_000` lines 161-174). -/
def statsA (s : List TicketA) : StatsA :=
  { total := s.length
    sold := (s.filter fun t => decide (t.buyer ≠ "")).length
    available := (s.filter fun t => decide (t.buyer = "")).length
    revenue := (s.filter fun t => decide (t.buyer ≠ "")).length * 20 }

/-- Modelled from the spec: the `{id, buyer, selected}` variant has no reset
route in the repository (the only reset route, `POST /api/reset` of
`src/api/server.ts`, operates on the `{number, isSelected, selectedAt}`
schema, which has no buyer field).  The spec defines `resetAll` as
bulk-clearing `sold`, `buyer` and `soldAt` on every ticket. -/
def resetAllA (s : List TicketA) : List TicketA :=
  s.map fun t => { t with buyer := "", selected := false }

/-- The states of the `{id, buyer, selected}` store reachable from first
startup by purchase requests and resets. -/
inductive ReachableA : List TicketA → Prop where
  | init : ReachableA initTicketsA
  | purchase (env : String) (numbers : List Nat) (buyer password : String)
      {s : List TicketA} :
      ReachableA s → ReachableA (purchaseA env numbers buyer password s).2.1
  | reset {s : List TicketA} : ReachableA s → ReachableA (resetAllA s)

/-- A five-ticket pool, all available, as in the scenarios of the spec. -/
def poolA5 : List TicketA :=
  [{ id := 1, buyer := "", selected := false },
   { id := 2, buyer := "", selected := false },
   { id := 3, buyer := "", selected := false },
   { id := 4, buyer := "", selected := false },
   { id := 5, buyer := "", selected := false }]

/-- The five-ticket pool with ticket 3 sold to Ana. -/
def poolA5sold3 : List TicketA :=
  [{ id := 1, buyer := "", selected := false },
   { id := 2, buyer := "", selected := false },
   { id := 3, buyer := "Ana", selected := true },
   { id := 4, buyer := "", selected := false },
   { id := 5, buyer := "", selected := false }]

/-! ## Variant B: tickets `{number, isAvailable, purchasedBy, purchaseDate}` -/

/-- A ticket record of the `{number, isAvailable, purchasedBy, purchaseDate}`
schema (`src/api/index.ts` lines 195-207, `src/unnamed/part_001` lines
18-30). -/
structure TicketB where
  number : Nat
  isAvailable : Bool
  purchasedBy : Option String
  purchaseDate : Option Nat
deriving Repr, DecidableEq

/-- The store operations the variant-B purchase routes issue: one `find`
over the requested numbers, then either one `updateMany` batch commit
(`src/api/index.ts` lines 302-313) or one `findOneAndUpdate` per requested
number (`src/api/numbers.ts` lines 185-198, `src/unnamed/part_001` lines
143-155). -/
inductive StoreOpB where
  | find (numbers : List Nat)
  | updateMany (numbers : List Nat) (buyer : String) (date : Nat)
  | updateOne (number : Nat) (buyer : String) (date : Nat)
deriving Repr, DecidableEq

/-- The responses of `POST /numbers/purchase` (`src/api/index.ts` lines
249-330): three 400-level validation errors, the 400 response with message
`Some numbers do not exist` (which carries no ticket numbers), the 400
response whose message names the already-purchased numbers, and the success
response. -/
inductive RespB where
  | numbersRequired
  | buyerRequired
  | passwordRequired
  | someNumbersDoNotExist
  | notAvailable (numbers : List Nat)
  | purchased (numbers : List Nat) (buyer : String) (purchaseDate : Nat)
deriving Repr, DecidableEq

/-- The availability query `NumberModel.find (number in numbers)`
(`src/api/index.ts` line 281). -/
def docsB (numbers : List Nat) (s : List TicketB) : List TicketB :=
  s.filter fun t => decide (t.number ∈ numbers)

/-- The filter `numberDocs.filter (doc => not doc.isAvailable)`
(`src/api/index.ts` line 292). -/
def unavailableB (numbers : List Nat) (s : List TicketB) : List TicketB :=
  (docsB numbers s).filter fun t => !t.isAvailable

/-- The per-document effect of the batch commit `updateMany (number in
numbers) (set isAvailable := false, purchasedBy := jsTrim buyer,
purchaseDate := now)` (`src/api/index.ts` lines 302-313). -/
def purchaseUpdB (buyer : String) (now : Nat) (numbers : List Nat)
    (t : TicketB) : TicketB :=
  if t.number ∈ numbers then
    { t with isAvailable := false, purchasedBy := some (jsTrim buyer),
             purchaseDate := some now }
  else t

/-- The route `POST /numbers/purchase` of `src/api/index.ts` (lines 249-330), the
variant whose commit is a single `updateMany` batch.  Returns the HTTP
response, the state of the store after the request, and the trace of store
operations the request performed. -/
def purchaseB (numbers : List Nat) (buyer password : String) (now : Nat)
    (s : List TicketB) : RespB × List TicketB × List StoreOpB :=
  if numbers = [] then (RespB.numbersRequired, s, [])
  else if jsTrim buyer = "" then (RespB.buyerRequired, s, [])
  else if jsTrim password = "" then (RespB.passwordRequired, s, [])
  else if (docsB numbers s).length ≠ numbers.length then
    (RespB.someNumbersDoNotExist, s, [StoreOpB.find numbers])
  else if unavailableB numbers s = [] then
    (RespB.purchased numbers (jsTrim buyer) now,
     s.map (purchaseUpdB buyer now numbers),
     [StoreOpB.find numbers, StoreOpB.updateMany numbers (jsTrim buyer) now])
  else
    (RespB.notAvailable ((unavailableB numbers s).map fun t => t.number), s,
     [StoreOpB.find numbers])

/-- The pre-commit phase of `POST /api/numbers/purchase` of
`src/api/numbers.ts` (lines 130-180 of that route; identical validation and
availability checks as `purchaseB`): the response of the early return, or
`none` when the handler proceeds to its update loop. -/
def loopCheck (numbers : List Nat) (buyer password : String)
    (s : List TicketB) : Option RespB :=
  if numbers = [] then some RespB.numbersRequired
  else if jsTrim buyer = "" then some RespB.buyerRequired
  else if jsTrim password = "" then some RespB.passwordRequired
  else if (docsB numbers s).length ≠ numbers.length then
    some RespB.someNumbersDoNotExist
  else if unavailableB numbers s = [] then none
  else some (RespB.notAvailable ((unavailableB numbers s).map fun t => t.number))

/-- One iteration of the commit loop: `findOneAndUpdate (number = n) (set
isAvailable := false, purchasedBy := buyerName, purchaseDate := now)`
(`src/api/numbers.ts` lines 186-198). -/
def loopUpdOne (buyer : String) (now : Nat) (n : Nat)
    (s : List TicketB) : List TicketB :=
  s.map fun t =>
    if t.number = n then
      { t with isAvailable := false, purchasedBy := some (jsTrim buyer),
               purchaseDate := some now }
    else t

/-- The whole commit loop `for (const number of numbers) await
findOneAndUpdate ...` (`src/api/numbers.ts` lines 185-198): one unconditional
per-ticket update after another, in request order. -/
def loopWrites (numbers : List Nat) (buyer : String) (now : Nat)
    (s : List TicketB) : List TicketB :=
  numbers.foldl (fun st n => loopUpdOne buyer now n st) s

/-- The store-operation trace of the commit loop: one `findOneAndUpdate` per
requested number - never a single batch update. -/
def loopWriteOps (numbers : List Nat) (buyer : String) (now : Nat) :
    List StoreOpB :=
  numbers.map fun n => StoreOpB.updateOne n (jsTrim buyer) now

/-- Two concurrent `POST /api/numbers/purchase` requests handled by the
per-ticket-loop route of `src/api/numbers.ts`, under the interleaving in
which both handlers complete their awaited availability `find` against the
same store state before either begins its update loop.  Each handler whose
pre-check passed then runs its whole loop and responds success; the loops
land in the store in request order (request 1 first). -/
def raceBothRead (numbers1 : List Nat) (buyer1 : String) (now1 : Nat)
    (numbers2 : List Nat) (buyer2 : String) (now2 : Nat)
    (password : String) (s : List TicketB) :
    RespB × RespB × List TicketB :=
  match loopCheck numbers1 buyer1 password s,
        loopCheck numbers2 buyer2 password s with
  | some r1, some r2 => (r1, r2, s)
  | some r1, none =>
      (r1, RespB.purchased numbers2 (jsTrim buyer2) now2,
       loopWrites numbers2 buyer2 now2 s)
  | none, some r2 =>
      (RespB.purchased numbers1 (jsTrim buyer1) now1, r2,
       loopWrites numbers1 buyer1 now1 s)
  | none, none =>
      (RespB.purchased numbers1 (jsTrim buyer1) now1,
       RespB.purchased numbers2 (jsTrim buyer2) now2,
       loopWrites numbers2 buyer2 now2 (loopWrites numbers1 buyer1 now1 s))

/-- A five-ticket variant-B pool, all available. -/
def poolB5 : List TicketB :=
  [{ number := 1, isAvailable := true, purchasedBy := none, purchaseDate := none },
   { number := 2, isAvailable := true, purchasedBy := none, purchaseDate := none },
   { number := 3, isAvailable := true, purchasedBy := none, purchaseDate := none },
   { number := 4, isAvailable := true, purchasedBy := none, purchaseDate := none },
   { number := 5, isAvailable := true, purchasedBy := none, purchaseDate := none }]

/-! ## Variant C: tickets `{number, isSelected, selectedAt}` -/

/-- A ticket record of the `{number, isSelected, selectedAt}` schema
(`src/api/server.ts` lines 24-35). -/
structure TicketC where
  number : Nat
  isSelected : Bool
  selectedAt : Option Nat
deriving Repr, DecidableEq

/-- The state transition of `POST /api/reset` (`src/api/server.ts` lines
127-138): `updateMany (isSelected = true) (set isSelected := false,
selectedAt := null)` - only documents currently selected are touched. -/
def resetAllC (s : List TicketC) : List TicketC :=
  s.map fun t =>
    if t.isSelected then { t with isSelected := false, selectedAt := none }
    else t

/-- The full `POST /api/reset` route (`src/api/server.ts` lines 127-138):
the new store state together with the response body, which is the fixed
message `All numbers have been reset` (the route returns no count). -/
def resetRouteC (s : List TicketC) : List TicketC × String :=
  (resetAllC s, "All numbers have been reset")

/-- The sold-tickets view `NumberModel.find (isSelected = true)`
(`src/api/server.ts` lines 115-124, ignoring the `selectedAt` sort). -/
def listSoldC (s : List TicketC) : List TicketC :=
  s.filter fun t => t.isSelected

/-! ## Helper lemmas -/

/-- Splitting a collection by a predicate partitions its count. -/
theorem length_filter_partition {α : Type} (p : α → Bool) (s : List α) :
    (s.filter p).length + (s.filter fun a => !(p a)).length = s.length := by
  induction s with
  | nil => rfl
  | cons a t ih =>
    cases h : p a <;> simp [List.filter_cons, h] <;> omega

/-- The purchase commit never changes a ticket id. -/
theorem purchaseUpdA_id (buyer : String) (numbers : List Nat) (t : TicketA) :
    (purchaseUpdA buyer numbers t).id = t.id := by
  unfold purchaseUpdA
  split <;> rfl

/-- A purchase request either leaves the store unchanged (any of the failure
branches) or, on the success branch only - where the buyer validation has
necessarily passed - applies the batch commit to every document. -/
theorem purchaseA_state_eq_or_map (env : String) (numbers : List Nat)
    (buyer password : String) (s : List TicketA) :
    (purchaseA env numbers buyer password s).2.1 = s ∨
    (jsTrim buyer ≠ "" ∧
     (purchaseA env numbers buyer password s).2.1 =
       s.map (purchaseUpdA buyer numbers)) := by
  unfold purchaseA
  split
  · exact Or.inl rfl
  next h1 =>
    split
    · exact Or.inl rfl
    next h2 =>
      split
      · exact Or.inl rfl
      next h3 =>
        split
        · exact Or.inl rfl
        next h4 =>
          split
          · exact Or.inr ⟨h2, rfl⟩
          · exact Or.inl rfl

/-- The shape of a successful purchase: with all validation hypotheses and
an empty conflict set, the route responds success, commits the batch update,
and traces one find followed by one updateMany. -/
theorem purchaseA_success_eq (env : String) (numbers : List Nat)
    (buyer password : String) (s : List TicketA)
    (hn : numbers ≠ []) (hb : jsTrim buyer ≠ "") (hp : password ≠ "")
    (he : password = env) (hc : conflictsA numbers s = []) :
    purchaseA env numbers buyer password s =
      (RespA.success, s.map (purchaseUpdA buyer numbers),
       [StoreOpA.findSold numbers, StoreOpA.updateMany numbers (jsTrim buyer)]) := by
  unfold purchaseA
  rw [if_neg hn, if_neg hb, if_neg hp, if_neg (not_not_intro he), if_pos hc]

/-! ## Claim theorems -/

/-- C1: for every valid purchase request in which at least one requested
ticket is already sold (non-empty `buyer`, the sold criterion of this
variant), the purchase fails with an `AlreadySold` response whose
`soldNumbers` list contains exactly the requested numbers that are already
sold, and no ticket changes state (the store state is returned unchanged and
the only store operation is the conflict read). -/
theorem purchaseA_alreadySold_exact
    (env : String) (numbers : List Nat) (buyer password : String)
    (s : List TicketA)
    (hn : numbers ≠ []) (hb : jsTrim buyer ≠ "") (hp : password ≠ "")
    (he : password = env)
    (hc : conflictsA numbers s ≠ []) :
    purchaseA env numbers buyer password s =
      (RespA.alreadySold ((conflictsA numbers s).map fun t => t.id), s,
       [StoreOpA.findSold numbers]) ∧
    ∀ n, n ∈ (conflictsA numbers s).map (fun t => t.id) ↔
      n ∈ numbers ∧ ∃ t ∈ s, t.id = n ∧ t.buyer ≠ "" := by
  constructor
  · unfold purchaseA
    rw [if_neg hn, if_neg hb, if_neg hp, if_neg (not_not_intro he), if_neg hc]
  · intro n
    simp only [conflictsA, List.mem_map, List.mem_filter, decide_eq_true_eq]
    constructor
    · rintro ⟨t, ⟨ht, hmem, hbuy⟩, rfl⟩
      exact ⟨hmem, t, ht, rfl, hbuy⟩
    · rintro ⟨hmem, t, ht, rfl, hbuy⟩
      exact ⟨t, ⟨ht, hmem, hbuy⟩, rfl⟩

/-- Witness for C1: on the five-ticket pool with ticket 3 sold to Ana, the
request for tickets 3 and 4 by Bob with the correct password. -/
theorem purchaseA_alreadySold_exact_witness :
    purchaseA "pw" [3, 4] "Bob" "pw" poolA5sold3 =
      (RespA.alreadySold ((conflictsA [3, 4] poolA5sold3).map fun t => t.id),
       poolA5sold3, [StoreOpA.findSold [3, 4]]) ∧
    ∀ n, n ∈ (conflictsA [3, 4] poolA5sold3).map (fun t => t.id) ↔
      n ∈ [3, 4] ∧ ∃ t ∈ poolA5sold3, t.id = n ∧ t.buyer ≠ "" :=
  purchaseA_alreadySold_exact "pw" [3, 4] "Bob" "pw" poolA5sold3
    (by decide) (by decide) (by decide) rfl (by decide)

/-- C7: in every reachable state of the store, the statistics of
`GET /api/admin/numbers` satisfy `total = sold + available` and
`revenue = sold * 20`. -/
theorem statsA_consistent {s : List TicketA} (_h : ReachableA s) :
    (statsA s).total = (statsA s).sold + (statsA s).available ∧
    (statsA s).revenue = (statsA s).sold * 20 := by
  refine ⟨?_, rfl⟩
  have hpart :
      (s.filter fun t => decide (t.buyer = "")) =
        s.filter fun t => !(decide (t.buyer ≠ "")) := by
    simp
  simp only [statsA, hpart]
  exact (length_filter_partition (fun t => decide (t.buyer ≠ "")) s).symm

/-- Witness for C7: the freshly initialized pool is reachable and its
statistics are consistent. -/
theorem statsA_consistent_witness :
    ReachableA initTicketsA ∧
    ((statsA initTicketsA).total =
        (statsA initTicketsA).sold + (statsA initTicketsA).available ∧
     (statsA initTicketsA).revenue = (statsA initTicketsA).sold * 20) :=
  ⟨ReachableA.init, statsA_consistent ReachableA.init⟩

/-- C9: in every state reachable from the initialized pool by purchase and
reset operations, a ticket has a non-empty `buyer` exactly when its sold
flag (`selected`) is set. -/
theorem reachableA_buyer_iff_selected {s : List TicketA} (h : ReachableA s) :
    ∀ t ∈ s, (t.buyer ≠ "" ↔ t.selected = true) := by
  induction h with
  | init =>
    intro t ht
    simp only [initTicketsA, List.mem_map] at ht
    obtain ⟨i, _, rfl⟩ := ht
    simp
  | purchase env numbers buyer password hs ih =>
    rcases purchaseA_state_eq_or_map env numbers buyer password _ with
      heq | ⟨hb, heq⟩
    · rw [heq]; exact ih
    · rw [heq]
      intro t ht
      simp only [List.mem_map] at ht
      obtain ⟨u, hu, rfl⟩ := ht
      unfold purchaseUpdA
      split
      · exact ⟨fun _ => rfl, fun _ => hb⟩
      · exact ih u hu
  | reset hs ih =>
    intro t ht
    simp only [resetAllA, List.mem_map] at ht
    obtain ⟨u, _, rfl⟩ := ht
    simp

/-- Witness for C9: the invariant at the reachable initial pool. -/
theorem reachableA_buyer_iff_selected_witness :
    ReachableA initTicketsA ∧
    ∀ t ∈ initTicketsA, (t.buyer ≠ "" ↔ t.selected = true) :=
  ⟨ReachableA.init, reachableA_buyer_iff_selected ReachableA.init⟩

/-- C5 counterexample: the purchase of the out-of-range number 99 on the
five-ticket pool, with a valid buyer and the correct password, is not
rejected by validation: the route reads the store, issues the (empty) batch
update, and responds success. -/
theorem purchaseA_out_of_range_reaches_store :
    purchaseA "pw" [99] "Alice" "pw" poolA5 =
      (RespA.success, poolA5,
       [StoreOpA.findSold [99], StoreOpA.updateMany [99] "Alice"]) := by
  decide

/-- C5 amended: a request with an empty number set, a buyer blank after
trimming, or a missing password is rejected with the corresponding
validation error before any store operation (the store-operation trace is
empty and the state is unchanged); requested numbers are not range-checked.
-/
theorem purchaseA_validation_no_store
    (env : String) (numbers : List Nat) (buyer password : String)
    (s : List TicketA)
    (h : numbers = [] ∨ jsTrim buyer = "" ∨ password = "") :
    ∃ r, purchaseA env numbers buyer password s = (r, s, []) ∧
      (r = RespA.invalidNumbers ∨ r = RespA.buyerRequired ∨
       r = RespA.passwordRequired) := by
  unfold purchaseA
  by_cases h1 : numbers = []
  · exact ⟨RespA.invalidNumbers, by rw [if_pos h1], Or.inl rfl⟩
  · rw [if_neg h1]
    by_cases h2 : jsTrim buyer = ""
    · exact ⟨RespA.buyerRequired, by rw [if_pos h2], Or.inr (Or.inl rfl)⟩
    · rw [if_neg h2]
      have h3 : password = "" := by tauto
      rw [if_pos h3]
      exact ⟨RespA.passwordRequired, rfl, Or.inr (Or.inr rfl)⟩

/-- Witness for the amended C5: a request with an empty number set. -/
theorem purchaseA_validation_no_store_witness :
    ∃ r, purchaseA "pw" [] "Alice" "pw" poolA5 = (r, poolA5, []) ∧
      (r = RespA.invalidNumbers ∨ r = RespA.buyerRequired ∨
       r = RespA.passwordRequired) :=
  purchaseA_validation_no_store "pw" [] "Alice" "pw" poolA5 (Or.inl rfl)

/-- C6 counterexample: purchasing the absent number 99 on a five-ticket pool
succeeds as a no-op, and immediately re-running the identical request also
succeeds - the retry is not rejected with `AlreadySold`. -/
theorem purchaseA_rerun_no_op_success :
    purchaseA "pw" [99] "Carol" "pw" poolA5 =
      (RespA.success, poolA5,
       [StoreOpA.findSold [99], StoreOpA.updateMany [99] "Carol"]) ∧
    purchaseA "pw" [99] "Carol" "pw"
        (purchaseA "pw" [99] "Carol" "pw" poolA5).2.1 =
      (RespA.success, poolA5,
       [StoreOpA.findSold [99], StoreOpA.updateMany [99] "Carol"]) := by
  decide

/-- C6 amended: for a valid purchase request all of whose numbers exist in
the pool, after a successful commit the identical request fails with
`AlreadySold` naming exactly the requested numbers.  (The first conjunct
fixes the state the successful request produces; the second re-runs the
identical request from that state.) -/
theorem purchaseA_retry_fails_alreadySold
    (env : String) (numbers : List Nat) (buyer password : String)
    (s : List TicketA)
    (hn : numbers ≠ []) (hb : jsTrim buyer ≠ "") (hp : password ≠ "")
    (he : password = env)
    (hex : ∀ n ∈ numbers, ∃ t ∈ s, t.id = n)
    (hc : conflictsA numbers s = []) :
    purchaseA env numbers buyer password s =
      (RespA.success, s.map (purchaseUpdA buyer numbers),
       [StoreOpA.findSold numbers,
        StoreOpA.updateMany numbers (jsTrim buyer)]) ∧
    ∃ l, purchaseA env numbers buyer password
          (s.map (purchaseUpdA buyer numbers)) =
        (RespA.alreadySold l, s.map (purchaseUpdA buyer numbers),
         [StoreOpA.findSold numbers]) ∧
      ∀ n, n ∈ l ↔ n ∈ numbers := by
  have h1 := purchaseA_success_eq env numbers buyer password s hn hb hp he hc
  have hkey : ∀ n,
      n ∈ (conflictsA numbers (s.map (purchaseUpdA buyer numbers))).map
            (fun t => t.id) ↔ n ∈ numbers := by
    intro n
    simp only [conflictsA, List.mem_map, List.mem_filter, decide_eq_true_eq]
    constructor
    · rintro ⟨t, ⟨-, hmem, -⟩, rfl⟩
      exact hmem
    · intro hmem
      obtain ⟨t, ht, hid⟩ := hex n hmem
      refine ⟨purchaseUpdA buyer numbers t,
        ⟨⟨t, ht, rfl⟩, ?_, ?_⟩, ?_⟩
      · rw [purchaseUpdA_id, hid]
        exact hmem
      · unfold purchaseUpdA
        rw [if_pos (show t.id ∈ numbers by rw [hid]; exact hmem)]
        exact hb
      · rw [purchaseUpdA_id, hid]
  have hne : conflictsA numbers (s.map (purchaseUpdA buyer numbers)) ≠ [] := by
    obtain ⟨n, hnmem⟩ := List.exists_mem_of_ne_nil numbers hn
    intro hnil
    have hmem := (hkey n).mpr hnmem
    rw [hnil] at hmem
    simp at hmem
  refine ⟨h1,
    (conflictsA numbers (s.map (purchaseUpdA buyer numbers))).map
      (fun t => t.id), ?_, hkey⟩
  unfold purchaseA
  rw [if_neg hn, if_neg hb, if_neg hp, if_neg (not_not_intro he), if_neg hne]

/-- Witness for the amended C6: Alice buys tickets 2 and 3 of the
five-ticket pool; the identical retry conflicts on exactly 2 and 3. -/
theorem purchaseA_retry_fails_alreadySold_witness :
    purchaseA "pw" [2, 3] "Alice" "pw" poolA5 =
      (RespA.success, poolA5.map (purchaseUpdA "Alice" [2, 3]),
       [StoreOpA.findSold [2, 3], StoreOpA.updateMany [2, 3] "Alice"]) ∧
    ∃ l, purchaseA "pw" [2, 3] "Alice" "pw"
          (poolA5.map (purchaseUpdA "Alice" [2, 3])) =
        (RespA.alreadySold l, poolA5.map (purchaseUpdA "Alice" [2, 3]),
         [StoreOpA.findSold [2, 3]]) ∧
      ∀ n, n ∈ l ↔ n ∈ [2, 3] :=
  purchaseA_retry_fails_alreadySold "pw" [2, 3] "Alice" "pw" poolA5
    (by decide) (by decide) (by decide) rfl (by decide) (by decide)

/-- C10: the conflict pre-check of the purchase route filters on
`buyer ne empty` only, never on the `selected` flag: a ticket whose
`selected` flag is set but whose `buyer` is empty is not reported as a
conflict, and a valid purchase request naming exactly that ticket succeeds
and overwrites it with the new buyer. -/
theorem purchaseA_overwrites_selected_unsold
    (env : String) (buyer password : String) (s : List TicketA) (t : TicketA)
    (_ht : t ∈ s) (_hsel : t.selected = true) (_hbuy : t.buyer = "")
    (huniq : ∀ u ∈ s, u.id = t.id → u.buyer = "")
    (hb : jsTrim buyer ≠ "") (hp : password ≠ "") (he : password = env) :
    purchaseA env [t.id] buyer password s =
      (RespA.success, s.map (purchaseUpdA buyer [t.id]),
       [StoreOpA.findSold [t.id], StoreOpA.updateMany [t.id] (jsTrim buyer)]) ∧
    ∀ u ∈ s.map (purchaseUpdA buyer [t.id]), u.id = t.id →
      u.buyer = jsTrim buyer ∧ u.selected = true := by
  have hc : conflictsA [t.id] s = [] := by
    unfold conflictsA
    rw [List.filter_eq_nil_iff]
    intro u hu
    simp only [decide_eq_true_eq, not_and, List.mem_singleton, ne_eq,
      Decidable.not_not]
    intro hid
    exact huniq u hu hid
  refine ⟨purchaseA_success_eq env [t.id] buyer password s
    (by simp) hb hp he hc, ?_⟩
  intro u hu hid
  simp only [List.mem_map] at hu
  obtain ⟨v, hv, rfl⟩ := hu
  rw [purchaseUpdA_id] at hid
  unfold purchaseUpdA
  rw [if_pos (show v.id ∈ [t.id] by simp [hid])]
  exact ⟨rfl, rfl⟩

/-- Witness for C10: a two-ticket pool whose first ticket has
`selected = true` but an empty buyer; the purchase by ` Bob ` (whitespace
around the name) overwrites it with the trimmed name. -/
theorem purchaseA_overwrites_selected_unsold_witness :
    purchaseA "pw" [1] " Bob " "pw"
        [{ id := 1, buyer := "", selected := true },
         { id := 2, buyer := "Ana", selected := true }] =
      (RespA.success,
       [{ id := 1, buyer := "", selected := true },
        { id := 2, buyer := "Ana", selected := true }].map
         (purchaseUpdA " Bob " [1]),
       [StoreOpA.findSold [1], StoreOpA.updateMany [1] (jsTrim " Bob ")]) ∧
    ∀ u ∈ [{ id := 1, buyer := "", selected := true },
           { id := 2, buyer := "Ana", selected := true }].map
            (purchaseUpdA " Bob " [1]),
      u.id = 1 → u.buyer = jsTrim " Bob " ∧ u.selected = true :=
  purchaseA_overwrites_selected_unsold "pw" " Bob " "pw" _
    { id := 1, buyer := "", selected := true }
    (by decide) rfl rfl (by decide) (by decide) (by decide) rfl

/-- The batch commit never changes a ticket number. -/
theorem purchaseUpdB_number (buyer : String) (now : Nat) (numbers : List Nat)
    (t : TicketB) : (purchaseUpdB buyer now numbers t).number = t.number := by
  unfold purchaseUpdB
  split <;> rfl

/-- C3: a purchase request that passes validation and finds every requested
number present and available commits one `updateMany` batch update (the
trace holds a single write operation) that, for every requested number, sets
the ticket sold (`isAvailable := false`), sets the buyer to the
whitespace-trimmed name, and sets the purchase timestamp to the current
time. -/
theorem purchaseB_commit_sets_fields
    (numbers : List Nat) (buyer password : String) (now : Nat)
    (s : List TicketB)
    (hn : numbers ≠ []) (hb : jsTrim buyer ≠ "") (hp : jsTrim password ≠ "")
    (hd : (docsB numbers s).length = numbers.length)
    (hu : unavailableB numbers s = []) :
    purchaseB numbers buyer password now s =
      (RespB.purchased numbers (jsTrim buyer) now,
       s.map (purchaseUpdB buyer now numbers),
       [StoreOpB.find numbers, StoreOpB.updateMany numbers (jsTrim buyer) now]) ∧
    ∀ t ∈ s.map (purchaseUpdB buyer now numbers), t.number ∈ numbers →
      t.isAvailable = false ∧ t.purchasedBy = some (jsTrim buyer) ∧
      t.purchaseDate = some now := by
  constructor
  · unfold purchaseB
    rw [if_neg hn, if_neg hb, if_neg hp, if_neg (not_not_intro hd), if_pos hu]
  · intro t ht hmem
    simp only [List.mem_map] at ht
    obtain ⟨u, hu', rfl⟩ := ht
    rw [purchaseUpdB_number] at hmem
    unfold purchaseUpdB
    rw [if_pos hmem]
    exact ⟨rfl, rfl, rfl⟩

/-- Witness for C3: ` Alice ` (whitespace around the name) buys tickets 2
and 3 of the five-ticket pool at time 7. -/
theorem purchaseB_commit_sets_fields_witness :
    purchaseB [2, 3] " Alice " "pw" 7 poolB5 =
      (RespB.purchased [2, 3] (jsTrim " Alice ") 7,
       poolB5.map (purchaseUpdB " Alice " 7 [2, 3]),
       [StoreOpB.find [2, 3],
        StoreOpB.updateMany [2, 3] (jsTrim " Alice ") 7]) ∧
    ∀ t ∈ poolB5.map (purchaseUpdB " Alice " 7 [2, 3]), t.number ∈ [2, 3] →
      t.isAvailable = false ∧ t.purchasedBy = some (jsTrim " Alice ") ∧
      t.purchaseDate = some 7 :=
  purchaseB_commit_sets_fields [2, 3] " Alice " "pw" 7 poolB5
    (by decide) (by decide) (by decide) (by decide) (by decide)

/-- C4 counterexample: the purchase of number 99 on a five-ticket pool does
fail and leaves the store untouched, but the response is the bare
`someNumbersDoNotExist` error - in the route it is the fixed message
`Some numbers do not exist`, which names no ticket number, not an
`UnknownTicket` error listing `[99]`. -/
theorem purchaseB_unknown_names_no_numbers :
    purchaseB [99] "Alice" "pw" 7 poolB5 =
      (RespB.someNumbersDoNotExist, poolB5, [StoreOpB.find [99]]) := by
  decide

/-- C4 amended: for every validated purchase request for which the store
returns fewer tickets than requested - in particular one naming a number
not present in the pool - the operation fails with the generic
`Some numbers do not exist` error, which does not name the missing numbers,
and no ticket changes state. -/
theorem purchaseB_unknown_no_change
    (numbers : List Nat) (buyer password : String) (now : Nat)
    (s : List TicketB)
    (hn : numbers ≠ []) (hb : jsTrim buyer ≠ "") (hp : jsTrim password ≠ "")
    (hd : (docsB numbers s).length ≠ numbers.length) :
    purchaseB numbers buyer password now s =
      (RespB.someNumbersDoNotExist, s, [StoreOpB.find numbers]) := by
  unfold purchaseB
  rw [if_neg hn, if_neg hb, if_neg hp, if_pos hd]

/-- Witness for the amended C4: the purchase of number 99 on the five-ticket
pool. -/
theorem purchaseB_unknown_no_change_witness :
    purchaseB [99] "Bob" "pw" 3 poolB5 =
      (RespB.someNumbersDoNotExist, poolB5, [StoreOpB.find [99]]) :=
  purchaseB_unknown_no_change [99] "Bob" "pw" 3 poolB5
    (by decide) (by decide) (by decide) (by decide)

/-- C2 (code bug): under the interleaving in which two purchase requests for
ticket 5 both pass the availability pre-check of the per-ticket-loop route
before either update loop runs, both requests respond success and neither
reports a conflict - ticket 5 is double-sold, ending owned by the second
writer.  Moreover the commit of a two-ticket request is a trace of two
per-ticket `findOneAndUpdate` operations, never one indivisible batch
update. -/
theorem raceBothRead_double_sell :
    raceBothRead [5] "Alice" 1 [5] "Bob" 2 "pw" poolB5 =
      (RespB.purchased [5] "Alice" 1, RespB.purchased [5] "Bob" 2,
       [{ number := 1, isAvailable := true, purchasedBy := none,
          purchaseDate := none },
        { number := 2, isAvailable := true, purchasedBy := none,
          purchaseDate := none },
        { number := 3, isAvailable := true, purchasedBy := none,
          purchaseDate := none },
        { number := 4, isAvailable := true, purchasedBy := none,
          purchaseDate := none },
        { number := 5, isAvailable := false, purchasedBy := some "Bob",
          purchaseDate := some 2 }]) ∧
    loopWriteOps [4, 5] "Alice" 1 =
      [StoreOpB.updateOne 4 "Alice" 1, StoreOpB.updateOne 5 "Alice" 1] := by
  decide

/-- C8 counterexample: on a store holding the single ticket
`(number 1, isSelected false, selectedAt 5)`, the reset route leaves the
stale `selectedAt` in place (its `updateMany` filter matches only selected
documents) and responds with the fixed confirmation message, not a count of
tickets reset. -/
theorem resetRouteC_stale_selectedAt :
    resetRouteC [{ number := 1, isSelected := false, selectedAt := some 5 }] =
      ([{ number := 1, isSelected := false, selectedAt := some 5 }],
       "All numbers have been reset") := by
  decide

/-- C8 amended: for every state, `resetAll` clears the sold flag and
`selectedAt` on every currently-selected ticket - afterwards no ticket is
selected and the sold list is empty - leaves unselected tickets untouched,
and responds with the fixed message `All numbers have been reset` rather
than a count of tickets reset. -/
theorem resetAllC_clears_sold (s : List TicketC) :
    (∀ t ∈ resetAllC s, t.isSelected = false) ∧
    listSoldC (resetAllC s) = [] ∧
    (∀ t ∈ s, t.isSelected = true →
      ({ t with isSelected := false, selectedAt := none } : TicketC) ∈
        resetAllC s) ∧
    (∀ t ∈ s, t.isSelected = false → t ∈ resetAllC s) ∧
    resetRouteC s = (resetAllC s, "All numbers have been reset") := by
  have hall : ∀ t ∈ resetAllC s, t.isSelected = false := by
    intro t ht
    simp only [resetAllC, List.mem_map] at ht
    obtain ⟨u, _, rfl⟩ := ht
    by_cases h : u.isSelected
    · rw [if_pos h]
    · rw [if_neg h]
      exact Bool.eq_false_iff.mpr h
  refine ⟨hall, ?_, ?_, ?_, rfl⟩
  · unfold listSoldC
    rw [List.filter_eq_nil_iff]
    intro t ht
    rw [hall t ht]
    decide
  · intro t ht hsel
    simp only [resetAllC, List.mem_map]
    exact ⟨t, ht, by rw [if_pos hsel]⟩
  · intro t ht hsel
    simp only [resetAllC, List.mem_map]
    refine ⟨t, ht, ?_⟩
    rw [if_neg (by rw [hsel]; decide)]

/-- Witness for the amended C8: the reset of a two-ticket store in which
ticket 1 is selected and ticket 2 is not. -/
theorem resetAllC_clears_sold_witness :
    (∀ t ∈ resetAllC [{ number := 1, isSelected := true, selectedAt := some 3 },
                      { number := 2, isSelected := false, selectedAt := none }],
       t.isSelected = false) ∧
    listSoldC (resetAllC
      [{ number := 1, isSelected := true, selectedAt := some 3 },
       { number := 2, isSelected := false, selectedAt := none }]) = [] ∧
    (∀ t ∈ [({ number := 1, isSelected := true, selectedAt := some 3 } : TicketC),
            { number := 2, isSelected := false, selectedAt := none }],
       t.isSelected = true →
       ({ t with isSelected := false, selectedAt := none } : TicketC) ∈
         resetAllC [{ number := 1, isSelected := true, selectedAt := some 3 },
                    { number := 2, isSelected := false, selectedAt := none }]) ∧
    (∀ t ∈ [({ number := 1, isSelected := true, selectedAt := some 3 } : TicketC),
            { number := 2, isSelected := false, selectedAt := none }],
       t.isSelected = false →
       t ∈ resetAllC [{ number := 1, isSelected := true, selectedAt := some 3 },
                      { number := 2, isSelected := false, selectedAt := none }]) ∧
    resetRouteC [{ number := 1, isSelected := true, selectedAt := some 3 },
                 { number := 2, isSelected := false, selectedAt := none }] =
      (resetAllC [{ number := 1, isSelected := true, selectedAt := some 3 },
                  { number := 2, isSelected := false, selectedAt := none }],
       "All numbers have been reset") :=
  resetAllC_clears_sold
    [{ number := 1, isSelected := true, selectedAt := some 3 },
     { number := 2, isSelected := false, selectedAt := none }]
